import Mathlib

/-!
Shallow embedding of the `PrWebSocket` connection manager from
`src/WebSocket.ts` (class `PrWebSocket`).

The manager owns one raw socket handle and three timer handles
(connect-timeout, reconnect-delay, heartbeat-interval) plus a retry
budget.  Each method of the class is translated into a pure function on
an explicit state record; timers are modelled by liveness flags, and
every externally visible effect (arming or clearing a timer, creating
or closing a raw socket, sending a payload, invoking a user callback)
is recorded in an action log so that theorems can speak about what the
code does, not only about the final state.

Timer-facility semantics used by the model: a one-shot timer that fires
is no longer pending afterwards, and a cleared timer never fires.
-/

namespace PrWs

/-- A raw socket handle: an identity plus its transport ready state
(0 connecting, 1 open, 2 closing, 3 closed), as exposed by the host
`WebSocket` object. -/
structure Socket where
  id : Nat
  readyState : Nat
deriving DecidableEq

/-- A close notification delivered by the transport; only its close code
matters to the manager. -/
structure CloseEvent where
  code : Nat
deriving DecidableEq

/-- Possible behaviors of a user-supplied asynchronous callback, used to
model the `onReconnectStop` / `onReconnectSuccess` options: it can run to
completion, throw synchronously when called, or return a promise that
later rejects. -/
inductive CbBehavior where
  | ok
  | throwSync
  | rejectAsync
deriving DecidableEq

/-- The merged `#options` record of the class, with the same defaults the
source assigns before merging the constructor argument.  The `url`,
`binaryType`, `debug` and message-callback options only feed logging and
message dispatch and are omitted; the two reconnect callbacks are
represented by their `CbBehavior`. -/
structure Options where
  timeout : Nat := 6000
  autoConnect : Bool := false
  reconnectCount : Int := -1
  reconnectTime : Int := 60000
  reconnectIntervalTime : Nat := 5000
  heartbeatIntervalTime : Nat := 10000
  checkReconnect : CloseEvent → Bool := fun _ => true
  onReconnectStopBehavior : CbBehavior := CbBehavior.ok
  onReconnectSuccessBehavior : CbBehavior := CbBehavior.ok

/-- The mutable fields of a `PrWebSocket` instance: the socket reference
`ws`, the counters `#surplusReconnectCount` and
`#maxReconnectionTimeStamp`, liveness of the three timers, and the
`#permanentClosed` flag. -/
structure ManagerState where
  ws : Option Socket
  surplusReconnectCount : Int
  maxReconnectionTimeStamp : Int
  connectTimerLive : Bool
  reconnectTimerLive : Bool
  heartbeatTimerLive : Bool
  permanentClosed : Bool
deriving DecidableEq

/-- Externally visible effects of the manager, recorded in order. -/
inductive Action where
  | armConnectTimer
  | armReconnectTimer
  | armHeartbeatTimer
  | clearConnectTimer
  | clearReconnectTimer
  | clearHeartbeatTimer
  | createSocket (id : Nat)
  | closeRawSocket (id : Nat) (code : Nat)
  | rawSend (sockId : Nat)
  | invokeReconnect (code : Nat)
  | invokeStopCb (msg : String)
deriving DecidableEq

/-- Translation of the private method `#clear`: it clears the
reconnect-delay timer and the heartbeat timer (and nothing else — in
particular not the connect-timeout timer). -/
def clear (s : ManagerState) : ManagerState × List Action :=
  ({ s with reconnectTimerLive := false, heartbeatTimerLive := false },
   [Action.clearReconnectTimer, Action.clearHeartbeatTimer])

/-- Translation of `#checkReconnectionTime`: when the stored deadline is
the sentinel -1 it is first set to `now + reconnectTime` (whatever the
configured budget is, the sentinel value -1 included), then the current
time is compared against the deadline; `false` means reconnection must
stop. -/
def checkReconnectionTime (o : Options) (now : Int) (s : ManagerState) :
    Bool × ManagerState :=
  let s1 :=
    if s.maxReconnectionTimeStamp = -1 then
      { s with maxReconnectionTimeStamp := now + o.reconnectTime }
    else s
  if now > s1.maxReconnectionTimeStamp then (false, s1) else (true, s1)

/-- Whether a call of a callback with the given behavior raises at the
call expression itself (a synchronous throw). -/
def raisesSync : CbBehavior → Bool
  | CbBehavior.throwSync => true
  | _ => false

/-- Whether awaiting the callback's returned promise raises: a
synchronous throw has already raised, and a rejecting promise raises
when awaited. -/
def raisesOnAwait : CbBehavior → Bool
  | CbBehavior.ok => false
  | _ => true

/-- Settlement of the promise returned by `reconnect`. -/
inductive ReconnectPromise where
  | pending
  | resolvedMsg (msg : String)
  | resolvedTrue
  | rejected
deriving DecidableEq

/-- Stop message used when the time budget check fails. -/
def stopMsgTime : String := "stop reconnect. exceed maxReconnectionTime."

/-- Stop message used when the attempt budget is exhausted. -/
def stopMsgCount : String := "stop reconnect. surplusReconnectCount is 0."

/-- Stop message used when the user predicate vetoes reconnection. -/
def stopMsgVeto : String := "stop reconnect. checkReconnect is false."

/-- The local helper `onReconnectStop` inside `reconnect`: it invokes the
user callback with the stop message — without any surrounding try/catch
and without awaiting it — and then calls `resolve(msg)`.  A synchronous
throw therefore escapes before `resolve` runs, rejecting the promise of
the executor; a merely rejecting returned promise is discarded unawaited
and `resolve(msg)` still runs. -/
def runStopPath (o : Options) (msg : String) : ReconnectPromise × List Action :=
  if raisesSync o.onReconnectStopBehavior then
    (ReconnectPromise.rejected, [Action.invokeStopCb msg])
  else
    (ReconnectPromise.resolvedMsg msg, [Action.invokeStopCb msg])

/-- Result of the synchronous body of `reconnect` (the promise executor
up to either a stop or the arming of the reconnect-delay timer). -/
structure ReconnectEvalResult where
  state : ManagerState
  promise : ReconnectPromise
  actions : List Action

/-- Translation of the stop-condition evaluation in `reconnect`: first
the time budget, then the exhausted attempt counter (a finite counter
equal to 0), then the user veto; if none triggers, the reconnect-delay
timer is armed and the promise stays pending. -/
def reconnectEval (o : Options) (now : Int) (e : CloseEvent)
    (s : ManagerState) : ReconnectEvalResult :=
  let c := checkReconnectionTime o now s
  if c.1 = false then
    let p := runStopPath o stopMsgTime
    ⟨c.2, p.1, p.2⟩
  else if c.2.surplusReconnectCount ≠ -1 ∧ c.2.surplusReconnectCount = 0 then
    let p := runStopPath o stopMsgCount
    ⟨c.2, p.1, p.2⟩
  else if o.checkReconnect e = false then
    let p := runStopPath o stopMsgVeto
    ⟨c.2, p.1, p.2⟩
  else
    ⟨{ c.2 with reconnectTimerLive := true }, ReconnectPromise.pending,
     [Action.armReconnectTimer]⟩

/-- The synchronous prefix of `connect`: it unconditionally creates a
fresh raw socket to the configured address (initially connecting),
overwrites the stored socket reference, registers the listeners, and
arms the connect-timeout timer.  It never inspects the previously held
socket, never closes it, and never touches the heartbeat timer. -/
def connectStart (s : ManagerState) (freshId : Nat) : ManagerState × List Action :=
  ({ s with ws := some ⟨freshId, 0⟩, connectTimerLive := true },
   [Action.createSocket freshId, Action.armConnectTimer])

/-- Translation of the `open` listener: clear the connect-timeout timer,
reset the remaining reconnect count to the configured maximum, reset the
reconnect deadline to the sentinel, arm the heartbeat timer and resolve;
the socket itself has transitioned to the open ready state. -/
def onOpen (o : Options) (s : ManagerState) : ManagerState × List Action :=
  ({ s with
      connectTimerLive := false,
      surplusReconnectCount := o.reconnectCount,
      maxReconnectionTimeStamp := -1,
      heartbeatTimerLive := true,
      ws := s.ws.map (fun w => { w with readyState := 1 }) },
   [Action.clearConnectTimer, Action.armHeartbeatTimer])

/-- Translation of the `error` listener: clear the connect-timeout timer
and reject the pending connect promise. -/
def onError (s : ManagerState) : ManagerState × List Action :=
  ({ s with connectTimerLive := false }, [Action.clearConnectTimer])

/-- Result of the `close` listener: the new state, whether the reconnect
procedure was invoked, the settlement its promise reached synchronously
(when invoked), and the logged actions. -/
structure CloseHandlerResult where
  state : ManagerState
  reconnectInvoked : Bool
  reconnectPromise : Option ReconnectPromise
  actions : List Action

/-- Translation of the `close` listener registered in `connect`: it
always runs `#clear` first, then — whenever `#permanentClosed` is false,
and only looking at that flag, never at the close code — invokes the
reconnect procedure with the event; otherwise it discards the socket
reference. -/
def onClose (o : Options) (now : Int) (e : CloseEvent)
    (s : ManagerState) : CloseHandlerResult :=
  let c := clear s
  if c.1.permanentClosed = false then
    let r := reconnectEval o now e c.1
    ⟨r.state, true, some r.promise, c.2 ++ Action.invokeReconnect e.code :: r.actions⟩
  else
    ⟨{ c.1 with ws := none }, false, none, c.2⟩

/-- Translation of the body of the reconnect-delay timer up to the call
of `connect`: the fired one-shot timer is no longer pending, the
remaining count is decremented with a floor at the sentinel -1, and
`connect` is entered, creating a fresh socket. -/
def reconnectTimerFire (s : ManagerState) (freshId : Nat) : ManagerState × List Action :=
  let s1 := { s with
      reconnectTimerLive := false,
      surplusReconnectCount := max (-1) (s.surplusReconnectCount - 1) }
  let c := connectStart s1 freshId
  (c.1, c.2)

/-- The continuation of the reconnect-delay timer body in the case where
the awaited `connect` succeeds: `onReconnectSuccess` is awaited inside
try/catch — both a synchronous throw and an awaited rejection land in
the catch clause, which only logs — and then `resolve(true)` runs. -/
def reconnectFireSuccessPromise (o : Options) : ReconnectPromise :=
  if raisesSync o.onReconnectSuccessBehavior || raisesOnAwait o.onReconnectSuccessBehavior then
    ReconnectPromise.resolvedTrue
  else
    ReconnectPromise.resolvedTrue

/-- The ready check at the top of `sendMessage`, mirroring the source
condition on the stored socket reference and its ready state. -/
def wsNotReady (s : ManagerState) : Bool :=
  match s.ws with
  | none => true
  | some w => w.readyState != 1

/-- Result of a `sendMessage` call: the new state, how many implicit
`connect` calls were awaited, the identity of the socket the payload
was handed to (none when it was dropped), and the logged actions. -/
structure SendResult where
  state : ManagerState
  connectCalls : Nat
  sendIssued : Option Nat
  actions : List Action

/-- Translation of `sendMessage`: when the socket is absent or not open
and auto-connect is enabled, exactly one `connect` is awaited (modelled
here as the connect prefix followed by a successful open); afterwards —
and in every other case directly — the payload is handed to the current
socket through the optional-chaining call, which is a no-op exactly when
the reference is absent.  The payload is never sent twice. -/
def sendMessage (o : Options) (freshId : Nat) (s : ManagerState) : SendResult :=
  let s1 :=
    if wsNotReady s && o.autoConnect then
      (onOpen o (connectStart s freshId).1).1
    else s
  let calls : Nat := if wsNotReady s && o.autoConnect then 1 else 0
  let pre : List Action :=
    if wsNotReady s && o.autoConnect then
      (connectStart s freshId).2 ++ (onOpen o (connectStart s freshId).1).2
    else []
  match s1.ws with
  | some w => ⟨s1, calls, some w.id, pre ++ [Action.rawSend w.id]⟩
  | none => ⟨s1, calls, none, pre⟩

/-- Result of one firing of the heartbeat interval timer. -/
structure TickResult where
  state : ManagerState
  submitted : Bool
  actions : List Action

/-- Translation of the callback armed by `#initHeartbeat`, guarded by
timer liveness: when the heartbeat timer is live the producer is asked
for a payload; a falsy (empty) payload skips the tick, otherwise the
payload is submitted through `sendMessage`. -/
def heartbeatTick (o : Options) (msg : String) (freshId : Nat)
    (s : ManagerState) : TickResult :=
  if s.heartbeatTimerLive = false then ⟨s, false, []⟩
  else if msg = "" then ⟨s, false, []⟩
  else
    let r := sendMessage o freshId s
    ⟨r.state, true, r.actions⟩

/-- Translation of the public `close` method: when a socket reference is
held, set `#permanentClosed`, run `#clear`, and issue the underlying
close with the given code; with no socket it is a no-op. -/
def close (s : ManagerState) (code : Nat) : ManagerState × List Action :=
  match s.ws with
  | some w =>
    let c := clear { s with permanentClosed := true }
    (c.1, c.2 ++ [Action.closeRawSocket w.id code])
  | none => (s, [])

/-- Operations and event deliveries that can hit a manager instance. -/
inductive Op where
  | connectCall (freshId : Nat)
  | openEvt
  | errorEvt
  | closeEvt (now : Int) (e : CloseEvent)
  | reconnectFire (freshId : Nat)
  | hbTick (msg : String) (freshId : Nat)
  | sendCall (freshId : Nat)
  | closeCall (code : Nat)
deriving DecidableEq

/-- One step of the manager under an operation or event. -/
def step (o : Options) (s : ManagerState) : Op → ManagerState × List Action
  | Op.connectCall i => connectStart s i
  | Op.openEvt => onOpen o s
  | Op.errorEvt => onError s
  | Op.closeEvt now e => ((onClose o now e s).state, (onClose o now e s).actions)
  | Op.reconnectFire i => reconnectTimerFire s i
  | Op.hbTick m i => ((heartbeatTick o m i s).state, (heartbeatTick o m i s).actions)
  | Op.sendCall i => ((sendMessage o i s).state, (sendMessage o i s).actions)
  | Op.closeCall c => close s c

/-- Run a sequence of operations, keeping only the state. -/
def run (o : Options) (s : ManagerState) : List Op → ManagerState
  | [] => s
  | op :: ops => run o (step o s op).1 ops

/-- One full failed-reconnect round driven by an unexpected close: the
close listener runs; when it armed the reconnect-delay timer, the timer
fires (decrement and fresh `connect`) and the attempt fails before open
(error listener), which the next close notification will follow.  The
returned flag records whether an attempt was made. -/
def closeCycle (o : Options) (now : Int) (e : CloseEvent) (freshId : Nat)
    (s : ManagerState) : ManagerState × Bool × Option ReconnectPromise :=
  let r := onClose o now e s
  if r.state.reconnectTimerLive then
    ((onError (reconnectTimerFire r.state freshId).1).1, true, r.reconnectPromise)
  else
    (r.state, false, r.reconnectPromise)

/-- Iterate `closeCycle` over a number of consecutive unexpected closes,
counting the reconnect attempts made. -/
def runCloses (o : Options) (now : Int) (e : CloseEvent) :
    Nat → ManagerState → ManagerState × Nat
  | 0, s => (s, 0)
  | Nat.succ n, s =>
    let c := closeCycle o now e 0 s
    let rest := runCloses o now e n c.1
    (rest.1, rest.2 + (if c.2.1 then 1 else 0))

/-- Settlement state of the promise returned by one `connect` call. -/
inductive ConnectPromise where
  | pending
  | resolvedOpen
  | rejectedError
  | rejectedTimeout
deriving DecidableEq

/-- Settle-at-most-once semantics of a promise: a further `resolve` or
`reject` on an already settled promise is a no-op. -/
def settle (p : ConnectPromise) (v : ConnectPromise) : ConnectPromise :=
  if p = ConnectPromise.pending then v else p

/-- The slice of a pending `connect` call's state that its pre-open
failure handling touches: the connect-timeout timer and the promise. -/
structure AttemptState where
  connectTimerLive : Bool
  promise : ConnectPromise
deriving DecidableEq

/-- State of a `connect` call right after its synchronous prefix: the
connect-timeout timer is armed and the promise is pending. -/
def attemptInit : AttemptState :=
  { connectTimerLive := true, promise := ConnectPromise.pending }

/-- Pre-open failure events a pending `connect` call can receive. -/
inductive PreOpenEvent where
  | errorEvt
  | timerFire
deriving DecidableEq

/-- Translation of the pre-open failure handling inside `connect`: the
`error` listener first clears the connect-timeout timer and then
rejects; the timeout callback runs only when its timer is still
pending — a fired one-shot timer is no longer pending — and rejects
with the descriptive timeout message. -/
def preOpenStep (a : AttemptState) : PreOpenEvent → AttemptState
  | PreOpenEvent.errorEvt =>
    { connectTimerLive := false,
      promise := settle a.promise ConnectPromise.rejectedError }
  | PreOpenEvent.timerFire =>
    if a.connectTimerLive then
      { connectTimerLive := false,
        promise := settle a.promise ConnectPromise.rejectedTimeout }
    else a

/-- Deliver a sequence of pre-open failure events. -/
def runPreOpen (a : AttemptState) : List PreOpenEvent → AttemptState
  | [] => a
  | ev :: evs => runPreOpen (preOpenStep a ev) evs

/-- Which settlement the first pre-open failure event produces. -/
def rejectionOf : PreOpenEvent → ConnectPromise
  | PreOpenEvent.errorEvt => ConnectPromise.rejectedError
  | PreOpenEvent.timerFire => ConnectPromise.rejectedTimeout

/-- Whether an action arms one of the three timers. -/
def isArm : Action → Bool
  | Action.armConnectTimer => true
  | Action.armReconnectTimer => true
  | Action.armHeartbeatTimer => true
  | _ => false

/-- Options record holding exactly the source defaults. -/
def opts0 : Options := {}

/-- Options with a reconnect budget of two attempts, as in the spec's
exhaustion scenario. -/
def optsN2 : Options := { reconnectCount := 2 }

/-- Options whose reconnect-stopped callback throws synchronously. -/
def optsThrowStop : Options := { onReconnectStopBehavior := CbBehavior.throwSync }

/-- A manager state holding an open socket with a fresh retry budget,
as reached after a successful `connect` under the default options. -/
def stOpen : ManagerState :=
  { ws := some ⟨1, 1⟩
    surplusReconnectCount := -1
    maxReconnectionTimeStamp := -1
    connectTimerLive := false
    reconnectTimerLive := false
    heartbeatTimerLive := true
    permanentClosed := false }

/-- A manager state after a caller-initiated `close`: flagged
permanently closed, timers cleared, socket reference discarded. -/
def stClosedPerm : ManagerState :=
  { stOpen with permanentClosed := true, heartbeatTimerLive := false, ws := none }

/-- A manager state whose remaining reconnect count is exhausted. -/
def stExhausted : ManagerState :=
  { stOpen with surplusReconnectCount := 0 }

/-- A manager state holding a socket that is still connecting
(ready state 0). -/
def stConnecting : ManagerState :=
  { stOpen with ws := some ⟨3, 0⟩ }

/-- Whether an action is a raw-socket send. -/
def isRawSend : Action → Bool
  | Action.rawSend _ => true
  | _ => false

/-- Options with the unlimited time-budget sentinel -1. -/
def optsNoTimeLimit : Options := { reconnectTime := -1 }

/-- A close event with the normal-closure code 1000. -/
def ceNormal : CloseEvent := ⟨1000⟩

/-- A close event with the abnormal-closure code 1006. -/
def ceAbnormal : CloseEvent := ⟨1006⟩

/-- The close listener invokes the reconnect procedure exactly when the
permanent-close flag is unset; the close code plays no role. -/
theorem onClose_reconnectInvoked (o : Options) (now : Int) (e : CloseEvent)
    (s : ManagerState) :
    (onClose o now e s).reconnectInvoked = !s.permanentClosed := by
  by_cases h : s.permanentClosed = false <;> simp [onClose, clear, h]

/-- The reconnect evaluation never touches the socket reference or the
heartbeat-timer flag. -/
theorem reconnectEval_ws_hb (o : Options) (now : Int) (e : CloseEvent)
    (s : ManagerState) :
    (reconnectEval o now e s).state.ws = s.ws
    ∧ (reconnectEval o now e s).state.heartbeatTimerLive = s.heartbeatTimerLive := by
  obtain ⟨ws, sc, st, ct, rt, hb, pc⟩ := s
  simp only [reconnectEval, checkReconnectionTime]
  split <;> split <;> simp_all <;> split <;> simp_all <;> split <;> simp_all

/-- The close listener always leaves the heartbeat timer cleared. -/
theorem onClose_heartbeat (o : Options) (now : Int) (e : CloseEvent)
    (s : ManagerState) :
    (onClose o now e s).state.heartbeatTimerLive = false := by
  by_cases h : s.permanentClosed = false <;>
    simp [onClose, clear, h, (reconnectEval_ws_hb o now e _).2]

/-- C1 (amended): after running the clean-up, the close listener
consults only the `permanentClosed` flag and never the close code: it
invokes the reconnect procedure exactly when the flag is false — also
for a close event with the normal-closure code 1000 — and discards the
socket reference exactly when the flag is true. -/
theorem close_listener_ignores_close_code (o : Options) (now : Int)
    (e : CloseEvent) (s : ManagerState) :
    (onClose o now e s).reconnectInvoked = !s.permanentClosed
    ∧ (onClose o now e s).state.ws = (if s.permanentClosed then none else s.ws)
    ∧ (onClose o now e s).state.heartbeatTimerLive = false := by
  refine ⟨onClose_reconnectInvoked o now e s, ?_, onClose_heartbeat o now e s⟩
  by_cases h : s.permanentClosed = false <;>
    simp [onClose, clear, h, (reconnectEval_ws_hb o now e _).1]

/-- C1 counterexample: a close event carrying the normal-closure code
1000, arriving while `permanentClosed` is false, does invoke the
reconnect procedure. -/
theorem close_code_1000_still_reconnects_cex :
    stOpen.permanentClosed = false ∧ ceNormal.code = 1000
    ∧ (onClose opts0 0 ceNormal stOpen).reconnectInvoked = true := by
  refine ⟨rfl, rfl, ?_⟩ ; rfl

/-- C3: with the unlimited sentinel -1 configured as the reconnect time
budget, the very first `#checkReconnectionTime` evaluation stores
`now - 1` as the deadline and reports the budget as exceeded, so the
reconnect procedure stops at once with the time-budget reason — the
sentinel does not disable the time-budget stop. -/
theorem reconnect_time_sentinel_stops_immediately (o : Options) (now : Int)
    (e : CloseEvent) (s : ManagerState)
    (hrt : o.reconnectTime = -1) (hst : s.maxReconnectionTimeStamp = -1)
    (hp : s.permanentClosed = false)
    (hcb : o.onReconnectStopBehavior = CbBehavior.ok) :
    (checkReconnectionTime o now s).1 = false
    ∧ (checkReconnectionTime o now s).2.maxReconnectionTimeStamp = now - 1
    ∧ (onClose o now e s).reconnectPromise
        = some (ReconnectPromise.resolvedMsg stopMsgTime)
    ∧ (onClose o now e s).state.reconnectTimerLive = false := by
  obtain ⟨ws, sc, st, ct, rt, hb, pc⟩ := s
  simp only at hst hp
  subst hst hp
  have hlt : now > now + o.reconnectTime := by omega
  simp [checkReconnectionTime, onClose, clear, reconnectEval, runStopPath,
    raisesSync, hlt, hcb, hrt]
  omega

/-- C3 witness: the sentinel budget stops the first reconnect evaluation
at the concrete time 1000. -/
theorem reconnect_time_sentinel_stops_immediately_witness :
    (checkReconnectionTime optsNoTimeLimit 1000 stOpen).1 = false
    ∧ (checkReconnectionTime optsNoTimeLimit 1000 stOpen).2.maxReconnectionTimeStamp = 1000 - 1
    ∧ (onClose optsNoTimeLimit 1000 ceAbnormal stOpen).reconnectPromise
        = some (ReconnectPromise.resolvedMsg stopMsgTime)
    ∧ (onClose optsNoTimeLimit 1000 ceAbnormal stOpen).state.reconnectTimerLive = false :=
  reconnect_time_sentinel_stops_immediately optsNoTimeLimit 1000 ceAbnormal stOpen
    rfl rfl rfl rfl

/-- C10: `connect` never short-circuits: from every state — an open
socket included — it creates a fresh connecting socket, overwrites the
stored reference, and arms the connect-timeout timer; its action list
contains neither a raw-socket close nor a heartbeat-timer clear, the
heartbeat flag is left as it was, and only the subsequent open re-arms
the heartbeat timer. -/
theorem connect_never_short_circuits (o : Options) (s : ManagerState) (i : Nat) :
    (connectStart s i).1.ws = some ⟨i, 0⟩
    ∧ (connectStart s i).1.connectTimerLive = true
    ∧ (connectStart s i).1.heartbeatTimerLive = s.heartbeatTimerLive
    ∧ (connectStart s i).2 = [Action.createSocket i, Action.armConnectTimer]
    ∧ (onOpen o (connectStart s i).1).2
        = [Action.clearConnectTimer, Action.armHeartbeatTimer]
    ∧ (onOpen o (connectStart s i).1).1.heartbeatTimerLive = true := by
  simp [connectStart, onOpen]

/-- C9: a heartbeat tick submits the produced payload through
`sendMessage` exactly when the heartbeat timer is live and the payload
is non-falsy; the close listener always leaves the heartbeat timer
cleared (so the tick after any close submits nothing), and a successful
open arms it. -/
theorem heartbeat_tick_only_while_open (o : Options) (msg : String) (i j : Nat)
    (s : ManagerState) (now : Int) (e : CloseEvent) :
    (heartbeatTick o msg i s).submitted = (s.heartbeatTimerLive && !(msg == ""))
    ∧ (onClose o now e s).state.heartbeatTimerLive = false
    ∧ (onOpen o s).1.heartbeatTimerLive = true
    ∧ (heartbeatTick o msg j (onClose o now e s).state).submitted = false := by
  have hhb : (onClose o now e s).state.heartbeatTimerLive = false :=
    onClose_heartbeat o now e s
  refine ⟨?_, hhb, by simp [onOpen], by simp [heartbeatTick, hhb]⟩
  by_cases h1 : s.heartbeatTimerLive <;> by_cases h2 : msg = "" <;>
    simp [heartbeatTick, h1, h2]

/-- C5 counterexample: on an instance flagged permanently closed, a
later explicit `connect` call still arms the connect-timeout timer. -/
theorem connect_after_permanent_close_arms_timer_cex :
    stClosedPerm.permanentClosed = true
    ∧ (step opts0 stClosedPerm (Op.connectCall 7)).1.connectTimerLive = true
    ∧ Action.armConnectTimer ∈ (step opts0 stClosedPerm (Op.connectCall 7)).2 := by
  refine ⟨rfl, rfl, ?_⟩
  simp [step, connectStart]

/-- C5 (amended): once `permanentClosed` is true, close-notification
handling never arms a timer — its action log contains no arming action,
the reconnect procedure is not entered, and both the reconnect-delay
and heartbeat flags end cleared — but a later explicit `connect` call
does arm the connect-timeout timer. -/
theorem permanent_close_timer_arming (o : Options) (s : ManagerState)
    (hp : s.permanentClosed = true) (now : Int) (e : CloseEvent) (i : Nat) :
    (onClose o now e s).actions.filter isArm = []
    ∧ (onClose o now e s).reconnectInvoked = false
    ∧ (onClose o now e s).state.reconnectTimerLive = false
    ∧ (onClose o now e s).state.heartbeatTimerLive = false
    ∧ (connectStart s i).1.connectTimerLive = true
    ∧ Action.armConnectTimer ∈ (connectStart s i).2 := by
  refine ⟨?_, ?_, ?_, onClose_heartbeat o now e s, by simp [connectStart],
    by simp [connectStart]⟩ <;> simp [onClose, clear, hp, isArm]

/-- C5 witness: the amended statement at a concrete permanently closed
state. -/
theorem permanent_close_timer_arming_witness :
    (onClose opts0 0 ceAbnormal stClosedPerm).actions.filter isArm = []
    ∧ (onClose opts0 0 ceAbnormal stClosedPerm).reconnectInvoked = false
    ∧ (onClose opts0 0 ceAbnormal stClosedPerm).state.reconnectTimerLive = false
    ∧ (onClose opts0 0 ceAbnormal stClosedPerm).state.heartbeatTimerLive = false
    ∧ (connectStart stClosedPerm 7).1.connectTimerLive = true
    ∧ Action.armConnectTimer ∈ (connectStart stClosedPerm 7).2 :=
  permanent_close_timer_arming opts0 stClosedPerm rfl 0 ceAbnormal 7

/-- Once the connect promise is settled, further pre-open failure events
cannot change its settlement. -/
theorem runPreOpen_settled :
    ∀ (evs : List PreOpenEvent) (a : AttemptState),
      a.promise ≠ ConnectPromise.pending → (runPreOpen a evs).promise = a.promise := by
  intro evs
  induction evs with
  | nil => intro a _; rfl
  | cons ev evs ih =>
    intro a h
    have hstep : (preOpenStep a ev).promise = a.promise := by
      cases ev <;> simp [preOpenStep, settle, h]
      split <;> simp [settle, h]
    rw [runPreOpen, ih _ (by rw [hstep]; exact h), hstep]

/-- C6: for a pending `connect` (connect-timeout armed, promise
pending), the first pre-open failure event — transport error or expiry
of the connect-timeout timer — leaves the connect-timeout timer no
longer live and the promise rejected with the corresponding descriptive
failure, and no sequence of further failure events can settle the
promise a second time. -/
theorem connect_pre_open_failure (ev : PreOpenEvent) (evs : List PreOpenEvent) :
    (preOpenStep attemptInit ev).connectTimerLive = false
    ∧ (preOpenStep attemptInit ev).promise = rejectionOf ev
    ∧ (runPreOpen (preOpenStep attemptInit ev) evs).promise = rejectionOf ev := by
  have h1 : (preOpenStep attemptInit ev).connectTimerLive = false := by
    cases ev <;> simp [preOpenStep, attemptInit]
  have h2 : (preOpenStep attemptInit ev).promise = rejectionOf ev := by
    cases ev <;> simp [preOpenStep, attemptInit, settle, rejectionOf]
  refine ⟨h1, h2, ?_⟩
  rw [runPreOpen_settled evs _ (by rw [h2]; cases ev <;> simp [rejectionOf]), h2]

/-- C7 counterexample: with a reconnect-stopped callback that throws
synchronously, the exception escapes the unguarded call site: the
reconnect procedure's promise is rejected instead of resolving with the
stop message, although the stop condition (exhausted attempts) was
reached normally. -/
theorem stop_callback_throw_escapes_cex :
    (onClose optsThrowStop 0 ceAbnormal stExhausted).reconnectInvoked = true
    ∧ (onClose optsThrowStop 0 ceAbnormal stExhausted).reconnectPromise
        = some ReconnectPromise.rejected := by
  exact ⟨rfl, rfl⟩

/-- C7 (amended): an exception raised by `onReconnectSuccess` — whether
a synchronous throw or an awaited rejection — is absorbed by the
try/catch at its call site and the reconnect promise still resolves
`true`; the `onReconnectStop` call site, in contrast, is unguarded: the
callback is always invoked, a rejecting returned promise is discarded
unawaited, but a synchronous throw — and only that — rejects the
reconnect promise, skipping its resolution. -/
theorem callback_exception_containment (o : Options) (msg : String) :
    reconnectFireSuccessPromise o = ReconnectPromise.resolvedTrue
    ∧ ((runStopPath o msg).1 = ReconnectPromise.rejected
        ↔ o.onReconnectStopBehavior = CbBehavior.throwSync)
    ∧ (runStopPath o msg).2 = [Action.invokeStopCb msg] := by
  refine ⟨by simp [reconnectFireSuccessPromise], ?_, ?_⟩ <;>
    cases h : o.onReconnectStopBehavior <;>
      simp [runStopPath, raisesSync, h]

/-- C8 counterexample: with auto-connect disabled and a stored socket
that is still connecting (not open), `sendMessage` does not drop the
payload: it still hands it to the non-open socket, with no implicit
connect. -/
theorem send_attempted_on_non_open_socket_cex :
    opts0.autoConnect = false
    ∧ stConnecting.ws = some ⟨3, 0⟩
    ∧ wsNotReady stConnecting = true
    ∧ (sendMessage opts0 9 stConnecting).connectCalls = 0
    ∧ (sendMessage opts0 9 stConnecting).sendIssued = some 3 := by
  exact ⟨rfl, rfl, rfl, rfl, rfl⟩

/-- State disposition of `sendMessage`: either the implicit
connect-and-open ran, or the state is untouched. -/
theorem sendMessage_state (o : Options) (i : Nat) (s : ManagerState) :
    (sendMessage o i s).state
      = (if wsNotReady s && o.autoConnect then (onOpen o (connectStart s i).1).1 else s) := by
  obtain ⟨ws, sc, st, ct, rt, hb, pc⟩ := s
  cases ws with
  | none =>
    by_cases ha : o.autoConnect = true <;>
      simp [sendMessage, wsNotReady, connectStart, onOpen, ha]
  | some w =>
    by_cases hr : w.readyState = 1 <;> by_cases ha : o.autoConnect = true <;>
      simp [sendMessage, wsNotReady, connectStart, onOpen, ha, hr, bne]

/-- C8 (amended): when the socket is absent or not open, `sendMessage`
awaits exactly one implicit `connect` if auto-connect is enabled and
none otherwise; with auto-connect disabled the manager state is left
untouched and the payload goes through the optional-chaining send —
dropped exactly when the reference is absent, but still attempted once
on a present non-open socket; in every case at most one raw send is
issued. -/
theorem send_message_disposition (o : Options) (i : Nat) (s : ManagerState) :
    (sendMessage o i s).connectCalls
      = (if wsNotReady s && o.autoConnect then 1 else 0)
    ∧ (sendMessage o i s).sendIssued
      = (if wsNotReady s && o.autoConnect then some i else Option.map Socket.id s.ws)
    ∧ (sendMessage o i s).state
      = (if wsNotReady s && o.autoConnect then (onOpen o (connectStart s i).1).1 else s)
    ∧ ((sendMessage o i s).actions.filter isRawSend).length ≤ 1 := by
  obtain ⟨ws, sc, st, ct, rt, hb, pc⟩ := s
  cases ws with
  | none =>
    by_cases ha : o.autoConnect = true <;>
      simp [sendMessage, wsNotReady, connectStart, onOpen, isRawSend, ha]
  | some w =>
    by_cases hr : w.readyState = 1 <;> by_cases ha : o.autoConnect = true <;>
      simp [sendMessage, wsNotReady, connectStart, onOpen, isRawSend, ha, hr, bne]

/-- No operation or event ever resets the permanent-close flag: the
source assigns `#permanentClosed` only in `close`, and only to true. -/
theorem step_preserves_permanentClosed (o : Options) (s : ManagerState)
    (op : Op) (h : s.permanentClosed = true) :
    (step o s op).1.permanentClosed = true := by
  cases op with
  | connectCall i => simpa [step, connectStart] using h
  | openEvt => simpa [step, onOpen] using h
  | errorEvt => simpa [step, onError] using h
  | closeEvt now e => simp [step, onClose, clear, h]
  | reconnectFire i => simpa [step, reconnectTimerFire, connectStart] using h
  | hbTick m i =>
    simp only [step, heartbeatTick]
    split
    · exact h
    · split
      · exact h
      · rw [sendMessage_state]
        split <;> simp_all [onOpen, connectStart]
  | sendCall i =>
    simp only [step]
    rw [sendMessage_state]
    split <;> simp_all [onOpen, connectStart]
  | closeCall c =>
    simp only [step, close]
    split <;> simp_all [clear]

/-- The permanent-close flag survives any sequence of operations. -/
theorem run_preserves_permanentClosed (o : Options) :
    ∀ (ops : List Op) (s : ManagerState), s.permanentClosed = true →
      (run o s ops).permanentClosed = true := by
  intro ops
  induction ops with
  | nil => intro s h; exact h
  | cons op ops ih =>
    intro s h
    exact ih _ (step_preserves_permanentClosed o s op h)

/-- C4: a caller-initiated `close` on a live socket sets the
permanent-close flag before issuing the underlying close and clears the
heartbeat and reconnect-delay timers synchronously; since no later
operation resets the flag and the close listener skips reconnection
whenever it is set, no close notification delivered after any further
sequence of operations ever invokes the reconnect procedure, whatever
its close code. -/
theorem close_call_suppresses_reconnect_forever (o : Options)
    (s : ManagerState) (code : Nat) (hws : s.ws.isSome = true) :
    (close s code).1.permanentClosed = true
    ∧ (close s code).1.reconnectTimerLive = false
    ∧ (close s code).1.heartbeatTimerLive = false
    ∧ ∀ (ops : List Op) (now : Int) (e : CloseEvent),
        (onClose o now e (run o (close s code).1 ops)).reconnectInvoked = false := by
  obtain ⟨w, hw⟩ := Option.isSome_iff_exists.mp hws
  have hc1 : (close s code).1.permanentClosed = true := by simp [close, hw, clear]
  refine ⟨hc1, by simp [close, hw, clear], by simp [close, hw, clear], ?_⟩
  intro ops now e
  have hrun : (run o (close s code).1 ops).permanentClosed = true :=
    run_preserves_permanentClosed o ops _ hc1
  rw [onClose_reconnectInvoked, hrun]
  rfl

/-- A close cycle whose remaining count is non-zero schedules and runs
one reconnect attempt: the count decrements (floored at the sentinel),
the deadline is pinned to `now` plus the budget, and the failed
attempt's timers end cleared. -/
theorem closeCycle_schedules (o : Options) (now : Int) (e : CloseEvent)
    (s : ManagerState) (hrt : 0 ≤ o.reconnectTime)
    (hcr : o.checkReconnect e = true) (hp : s.permanentClosed = false)
    (hsc : s.surplusReconnectCount ≠ 0)
    (hst : s.maxReconnectionTimeStamp = -1 ∨
           s.maxReconnectionTimeStamp = now + o.reconnectTime) :
    (closeCycle o now e 0 s).2.1 = true
    ∧ (closeCycle o now e 0 s).1.permanentClosed = s.permanentClosed
    ∧ (closeCycle o now e 0 s).1.surplusReconnectCount
        = max (-1) (s.surplusReconnectCount - 1)
    ∧ (closeCycle o now e 0 s).1.maxReconnectionTimeStamp = now + o.reconnectTime := by
  obtain ⟨ws, sc, st, ct, rt, hb, pc⟩ := s
  simp only at hp hsc hst
  subst hp
  have hng : ¬ (now > now + o.reconnectTime) := by omega
  have hc2 : ¬ (sc ≠ -1 ∧ sc = 0) := by omega
  rcases hst with h | h
  · subst h
    simp [closeCycle, onClose, clear, reconnectEval, checkReconnectionTime,
      reconnectTimerFire, connectStart, onError, hng, hc2, hcr]
  · subst h
    by_cases hdeg : now + o.reconnectTime = -1
    · have hng2 : ¬ (now > (-1 : Int)) := by omega
      simp [closeCycle, onClose, clear, reconnectEval, checkReconnectionTime,
        reconnectTimerFire, connectStart, onError, hdeg, hng2, hc2, hcr]
    · simp [closeCycle, onClose, clear, reconnectEval, checkReconnectionTime,
        reconnectTimerFire, connectStart, onError, hdeg, hng, hc2, hcr]

/-- A close cycle whose finite remaining count is zero makes no attempt:
the stop path runs with the attempts-exhausted message and the
reconnect-delay timer stays cleared. -/
theorem closeCycle_stops (o : Options) (now : Int) (e : CloseEvent)
    (s : ManagerState) (hrt : 0 ≤ o.reconnectTime)
    (hcb : o.onReconnectStopBehavior = CbBehavior.ok)
    (hp : s.permanentClosed = false) (hsc : s.surplusReconnectCount = 0)
    (hst : s.maxReconnectionTimeStamp = -1 ∨
           s.maxReconnectionTimeStamp = now + o.reconnectTime) :
    (closeCycle o now e 0 s).2.1 = false
    ∧ (closeCycle o now e 0 s).2.2 = some (ReconnectPromise.resolvedMsg stopMsgCount)
    ∧ (closeCycle o now e 0 s).1.reconnectTimerLive = false := by
  obtain ⟨ws, sc, st, ct, rt, hb, pc⟩ := s
  simp only at hp hsc hst
  subst hp hsc
  have hng : ¬ (now > now + o.reconnectTime) := by omega
  have hc2 : ((0 : Int) ≠ -1 ∧ (0 : Int) = 0) := by omega
  rcases hst with h | h
  · subst h
    simp [closeCycle, onClose, clear, reconnectEval, checkReconnectionTime,
      runStopPath, raisesSync, hng, hc2, hcb]
  · subst h
    by_cases hdeg : now + o.reconnectTime = -1
    · have hng2 : ¬ (now > (-1 : Int)) := by omega
      simp [closeCycle, onClose, clear, reconnectEval, checkReconnectionTime,
        runStopPath, raisesSync, hdeg, hng2, hc2, hcb]
    · simp [closeCycle, onClose, clear, reconnectEval, checkReconnectionTime,
        runStopPath, raisesSync, hdeg, hng, hc2, hcb]

/-- Running `n` consecutive failed close cycles from a state with
remaining count `n` makes exactly `n` attempts and ends with the count
at zero, the deadline within the budget, and the flag still unset. -/
theorem runCloses_exhausts (o : Options) (now : Int) (e : CloseEvent)
    (hrt : 0 ≤ o.reconnectTime) (hcr : ∀ ev, o.checkReconnect ev = true) :
    ∀ (n : Nat) (s : ManagerState),
      s.permanentClosed = false →
      s.surplusReconnectCount = (n : Int) →
      (s.maxReconnectionTimeStamp = -1 ∨
       s.maxReconnectionTimeStamp = now + o.reconnectTime) →
      (runCloses o now e n s).2 = n
      ∧ (runCloses o now e n s).1.permanentClosed = false
      ∧ (runCloses o now e n s).1.surplusReconnectCount = 0
      ∧ ((runCloses o now e n s).1.maxReconnectionTimeStamp = -1 ∨
         (runCloses o now e n s).1.maxReconnectionTimeStamp = now + o.reconnectTime) := by
  intro n
  induction n with
  | zero =>
    intro s hp hsc hst
    exact ⟨rfl, hp, hsc, hst⟩
  | succ n ih =>
    intro s hp hsc hst
    have hcyc := closeCycle_schedules o now e s hrt (hcr e) hp (by omega) hst
    have hmax : max (-1) (s.surplusReconnectCount - 1) = (n : Int) := by
      rw [hsc]; omega
    have hrec := ih (closeCycle o now e 0 s).1
      (by rw [hcyc.2.1]; exact hp) (by rw [hcyc.2.2.1]; exact hmax)
      (Or.inr hcyc.2.2.2)
    simp only [runCloses]
    refine ⟨?_, hrec.2.1, hrec.2.2.1, hrec.2.2.2⟩
    rw [hcyc.1, hrec.1]
    simp

/-- C2: starting from a successful open under a finite attempt budget
`N`, `N` consecutive unexpected closes each schedule and run exactly one
reconnect attempt (`N` in total), leaving the remaining count at zero;
the `(N+1)`-th unexpected close makes no further attempt, leaves the
reconnect-delay timer unarmed, and settles the reconnect procedure with
the attempts-exhausted stop message. -/
theorem reconnect_attempt_budget_exhaustion (o : Options) (now : Int)
    (e : CloseEvent) (N : Nat) (s : ManagerState)
    (hN : o.reconnectCount = (N : Int)) (hrt : 0 ≤ o.reconnectTime)
    (hcr : ∀ ev, o.checkReconnect ev = true)
    (hcb : o.onReconnectStopBehavior = CbBehavior.ok)
    (hp : s.permanentClosed = false) :
    (runCloses o now e N (onOpen o s).1).2 = N
    ∧ (runCloses o now e N (onOpen o s).1).1.surplusReconnectCount = 0
    ∧ (closeCycle o now e 0 (runCloses o now e N (onOpen o s).1).1).2.1 = false
    ∧ (closeCycle o now e 0 (runCloses o now e N (onOpen o s).1).1).2.2
        = some (ReconnectPromise.resolvedMsg stopMsgCount)
    ∧ (closeCycle o now e 0 (runCloses o now e N (onOpen o s).1).1).1.reconnectTimerLive
        = false := by
  have hrun := runCloses_exhausts o now e hrt hcr N (onOpen o s).1
    (by simpa [onOpen] using hp) (by simpa [onOpen] using hN) (by simp [onOpen])
  have hstop := closeCycle_stops o now e (runCloses o now e N (onOpen o s).1).1
    hrt hcb hrun.2.1 hrun.2.2.1 hrun.2.2.2
  exact ⟨hrun.1, hrun.2.2.1, hstop.1, hstop.2.1, hstop.2.2⟩

/-- C2 witness: the budget-two scenario at concrete inputs — two
attempts, then the third close stops with the exhausted-count reason. -/
theorem reconnect_attempt_budget_exhaustion_witness :
    (runCloses optsN2 0 ceAbnormal 2 (onOpen optsN2 stOpen).1).2 = 2
    ∧ (runCloses optsN2 0 ceAbnormal 2 (onOpen optsN2 stOpen).1).1.surplusReconnectCount = 0
    ∧ (closeCycle optsN2 0 ceAbnormal 0
        (runCloses optsN2 0 ceAbnormal 2 (onOpen optsN2 stOpen).1).1).2.1 = false
    ∧ (closeCycle optsN2 0 ceAbnormal 0
        (runCloses optsN2 0 ceAbnormal 2 (onOpen optsN2 stOpen).1).1).2.2
        = some (ReconnectPromise.resolvedMsg stopMsgCount)
    ∧ (closeCycle optsN2 0 ceAbnormal 0
        (runCloses optsN2 0 ceAbnormal 2 (onOpen optsN2 stOpen).1).1).1.reconnectTimerLive
        = false :=
  reconnect_attempt_budget_exhaustion optsN2 0 ceAbnormal 2 stOpen
    (by decide) (by decide) (fun _ => rfl) rfl rfl

/-- C4 witness: the suppression at a concrete open state, with a later
explicit connect-and-open and an abnormal close notification. -/
theorem close_call_suppresses_reconnect_forever_witness :
    (close stOpen 1000).1.permanentClosed = true
    ∧ (onClose opts0 0 ceAbnormal
        (run opts0 (close stOpen 1000).1 [Op.connectCall 5, Op.openEvt])).reconnectInvoked
      = false :=
  ⟨(close_call_suppresses_reconnect_forever opts0 stOpen 1000 rfl).1,
   (close_call_suppresses_reconnect_forever opts0 stOpen 1000 rfl).2.2.2
     [Op.connectCall 5, Op.openEvt] 0 ceAbnormal⟩

end PrWs
